import Mathlib

/-!
Verification of the agent-motion core of the Safe-Sound Blender script
(`src/Blenderscript.py`): cloud motion (`move_clouds`), drone navigation
(`move_drone`), the per-frame driver (`update_scene`), and the
initialization loops (hospital/cloud placement, drone creation).

Positions are modelled as real-valued 3D vectors (`Vec3`), mirroring
`mathutils.Vector`.  `Vector.normalized()` of a zero-length vector is the
zero vector, exactly as in mathutils.  Randomness (`random.choice`,
`random.uniform`) is modelled by passing the drawn values / indices in as
parameters; `random.choice` on an empty list is an error, modelled as
`Option.none`.
-/

namespace SafeSound

/-- A 3D vector with real coordinates, mirroring `mathutils.Vector`. -/
@[ext] structure Vec3 where
  x : ℝ
  y : ℝ
  z : ℝ

namespace Vec3

instance : Zero Vec3 := ⟨⟨0, 0, 0⟩⟩
instance : Add Vec3 := ⟨fun a b => ⟨a.x + b.x, a.y + b.y, a.z + b.z⟩⟩
instance : Neg Vec3 := ⟨fun a => ⟨-a.x, -a.y, -a.z⟩⟩
instance : Sub Vec3 := ⟨fun a b => ⟨a.x - b.x, a.y - b.y, a.z - b.z⟩⟩
instance : SMul ℝ Vec3 := ⟨fun c a => ⟨c * a.x, c * a.y, c * a.z⟩⟩

instance : AddCommMonoid Vec3 where
  add_assoc a b c := by
    ext
    · exact add_assoc a.x b.x c.x
    · exact add_assoc a.y b.y c.y
    · exact add_assoc a.z b.z c.z
  zero_add a := by
    ext
    · exact zero_add a.x
    · exact zero_add a.y
    · exact zero_add a.z
  add_zero a := by
    ext
    · exact add_zero a.x
    · exact add_zero a.y
    · exact add_zero a.z
  add_comm a b := by
    ext
    · exact add_comm a.x b.x
    · exact add_comm a.y b.y
    · exact add_comm a.z b.z
  nsmul := nsmulRec

/-- Euclidean length of a vector (`Vector.length`). -/
noncomputable def length (v : Vec3) : ℝ := Real.sqrt (v.x ^ 2 + v.y ^ 2 + v.z ^ 2)

/-- `Vector.normalized()`: the unit vector in the same direction; the zero
vector is returned unchanged (mathutils behaviour). -/
noncomputable def normalized (v : Vec3) : Vec3 :=
  if 0 < v.length then (1 / v.length) • v else 0

end Vec3

/-! Configuration constants from the script header.  `NUM_DRONES`,
`NUM_HOSPITALS` and `NUM_CLOUDS` are drawn at random at start-up, so agent
counts are kept abstract; the geometric constants are fixed. -/

def CITY_GRID_SIZE : ℝ := 20
def BUILDING_SPACING : ℝ := 5.0
def HOSPITAL_RADIUS : ℝ := 2
def HOSPITAL_HEIGHT : ℝ := 8
def CLOUD_RADIUS : ℝ := 3
def CLOUD_ALTITUDE : ℝ := 10
noncomputable def CLOUD_SPEED : ℝ := 0.1
def DRONE_ALTITUDE : ℝ := CLOUD_ALTITUDE
noncomputable def DRONE_SPEED : ℝ := 0.15
def DRONE_AVOIDANCE_RADIUS : ℝ := CLOUD_RADIUS + 3
noncomputable def CITY_BOUNDARY_X : ℝ := CITY_GRID_SIZE * BUILDING_SPACING / 2
noncomputable def CITY_BOUNDARY_Y : ℝ := CITY_GRID_SIZE * BUILDING_SPACING / 2

open Classical

/-- A cloud: current position and persisted heading (`cloud["direction"]`). -/
@[ext] structure Cloud where
  location : Vec3
  direction : Vec3

/-- The `near_hospital` test of `move_clouds` (lines 150-153): some hospital,
taken at cloud altitude, is within `CLOUD_RADIUS + HOSPITAL_RADIUS` of the
candidate position. -/
def nearHospitalC (hospitals : List Vec3) (new_pos : Vec3) : Prop :=
  ∃ h ∈ hospitals,
    (Vec3.mk h.x h.y CLOUD_ALTITUDE - new_pos).length < CLOUD_RADIUS + HOSPITAL_RADIUS

/-- One `move_clouds` update of a single cloud (lines 145-162): compute the
candidate position from the stored heading, flip the heading's x (resp. y)
component when the candidate leaves the city boundary on that axis or comes
near a hospital, then move by the (possibly flipped) heading and persist it. -/
noncomputable def moveCloud (hospitals : List Vec3) (c : Cloud) : Cloud :=
  let direction := c.direction
  let new_pos := c.location + CLOUD_SPEED • direction
  let near_hospital := nearHospitalC hospitals new_pos
  let dx := if |new_pos.x| > CITY_BOUNDARY_X ∨ near_hospital then -direction.x else direction.x
  let dy := if |new_pos.y| > CITY_BOUNDARY_Y ∨ near_hospital then -direction.y else direction.y
  let direction' : Vec3 := ⟨dx, dy, direction.z⟩
  { location := c.location + CLOUD_SPEED • direction', direction := direction' }

/-- `move_clouds` over the whole cloud list; each cloud only reads the
hospital list and its own state, so the in-place loop is a map. -/
noncomputable def moveClouds (hospitals : List Vec3) (clouds : List Cloud) : List Cloud :=
  clouds.map (moveCloud hospitals)

/-- Projection to the z = 0 plane, as `Vector((v.x, v.y, 0))` in
`move_drone`. -/
def planar (v : Vec3) : Vec3 := ⟨v.x, v.y, 0⟩

/-- The repulsion contribution of one cloud to a drone at `p`
(`move_drone` lines 171-179): zero outside the avoidance radius; inside it,
the normalized planar vector from the cloud to the drone scaled by
`1.5 * (R - distance) / R`. -/
noncomputable def repulsionOf (p cloudLoc : Vec3) : Vec3 :=
  let cloud_pos := planar cloudLoc
  let drone_pos_2d := planar p
  let distance := (cloud_pos - drone_pos_2d).length
  if distance < DRONE_AVOIDANCE_RADIUS then
    (1.5 * (DRONE_AVOIDANCE_RADIUS - distance) / DRONE_AVOIDANCE_RADIUS) •
      (drone_pos_2d - cloud_pos).normalized
  else 0

/-- The attraction term of `move_drone` (lines 167-168). -/
noncomputable def attractionOf (p target : Vec3) : Vec3 :=
  let target_vector := target - p
  if target_vector.length > 0 then target_vector.normalized else 0

/-- The normalized movement direction of `move_drone` (lines 181-183):
attraction plus accumulated repulsion, normalized when non-zero. -/
noncomputable def droneMovement (p target : Vec3) (clouds : List Cloud) : Vec3 :=
  let movement := attractionOf p target +
    clouds.foldl (fun acc c => acc + repulsionOf p c.location) 0
  if movement.length > 0 then movement.normalized else movement

/-- `move_drone` (lines 164-187): step from `p` toward `target` by
`DRONE_SPEED` along the movement direction, then force z to the drone
altitude. -/
noncomputable def moveDrone (p target : Vec3) (clouds : List Cloud) : Vec3 :=
  let new_pos := p + DRONE_SPEED • droneMovement p target clouds
  ⟨new_pos.x, new_pos.y, DRONE_ALTITUDE⟩

/-- One entry of the `drones` list: the drone's position, its current target
position, and (the index of) the hospital stored with it. -/
@[ext] structure DroneRec where
  loc : Vec3
  target : Vec3
  hosp : ℕ

/-- Force a hospital position to drone altitude
(`p.copy(); p.z = DRONE_ALTITUDE`). -/
def setAlt (v : Vec3) : Vec3 := ⟨v.x, v.y, DRONE_ALTITUDE⟩

/-- `random.choice(l)` with the random draw `k` passed in: an arbitrary
element of `l` (here `l[k % len(l)]`), and an error on an empty list. -/
def randomChoice {α : Type} (l : List α) (k : ℕ) : Option α :=
  if h : 0 < l.length then some (l.get ⟨k % l.length, Nat.mod_lt k h⟩) else none

/-- `random.choice([h for h in hospitals if h != excluded])` over hospital
indices `0, ..., n-1`. -/
def chooseExcluding (n excl k : ℕ) : Option ℕ :=
  randomChoice ((List.range n).filter fun i => decide (i ≠ excl)) k

/-- The per-drone body of `update_scene` (lines 252-269): if the drone is
within `DRONE_SPEED * 2` of its target, pick a new hospital different from
the stored one, teleport the drone to the stored hospital's position (z
forced to drone altitude), make the new hospital's position (z forced) the
target and store the new hospital, skipping `move_drone`; otherwise run
`move_drone` against `clouds` and leave target and stored hospital alone. -/
noncomputable def stepDrone (hospitals : List Vec3) (clouds : List Cloud) (k : ℕ)
    (d : DroneRec) : Option DroneRec :=
  if (d.loc - d.target).length < DRONE_SPEED * 2 then
    match chooseExcluding hospitals.length d.hosp k with
    | none => none
    | some j =>
      some { loc := setAlt (hospitals.getD d.hosp 0)
             target := setAlt (hospitals.getD j 0)
             hosp := j }
  else
    some { loc := moveDrone d.loc d.target clouds, target := d.target, hosp := d.hosp }

/-- The drone loop of `update_scene`, with `picks i` the random draw used for
drone `i`'s retarget (if any). -/
noncomputable def updateDrones (hospitals : List Vec3) (clouds : List Cloud)
    (picks : ℕ → ℕ) : List DroneRec → ℕ → Option (List DroneRec)
  | [], _ => some []
  | d :: ds, i =>
    match stepDrone hospitals clouds (picks i) d with
    | none => none
    | some d' =>
      match updateDrones hospitals clouds picks ds (i + 1) with
      | none => none
      | some ds' => some (d' :: ds')

/-- The whole simulation state mutated by `update_scene`. -/
@[ext] structure State where
  hospitals : List Vec3
  clouds : List Cloud
  drones : List DroneRec

/-- `update_scene` (lines 249-269): first `move_clouds(clouds)`, then the
drone loop, which reads the already-updated cloud list. -/
noncomputable def updateScene (picks : ℕ → ℕ) (s : State) : Option State :=
  let newClouds := moveClouds s.hospitals s.clouds
  match updateDrones s.hospitals newClouds picks s.drones 0 with
  | none => none
  | some ds => some { hospitals := s.hospitals, clouds := newClouds, drones := ds }

/-- `n` frames of the simulation handler, with `picks t` the random draws of
tick `t`. -/
noncomputable def runTicks (picks : ℕ → ℕ → ℕ) : ℕ → State → Option State
  | 0, s => some s
  | n + 1, s =>
    match updateScene (picks n) s with
    | none => none
    | some s' => runTicks picks n s'

/-- Creation of one drone record (lines 236-246): a start hospital, then an
end hospital different from it; the drone starts at the start hospital's
position and stores the start hospital. -/
def initDrone (hs : List Vec3) (k1 k2 : ℕ) : Option DroneRec :=
  match randomChoice (List.range hs.length) k1 with
  | none => none
  | some si =>
    match chooseExcluding hs.length si k2 with
    | none => none
    | some ei =>
      some { loc := setAlt (hs.getD si 0), target := setAlt (hs.getD ei 0), hosp := si }

/-- The drone-creation loop, `n` drones with draws `ks`. -/
def initDrones (hs : List Vec3) (ks : ℕ → ℕ × ℕ) : ℕ → Option (List DroneRec)
  | 0 => some []
  | n + 1 =>
    match initDrone hs (ks n).1 (ks n).2 with
    | none => none
    | some d =>
      match initDrones hs ks n with
      | none => none
      | some ds => some (d :: ds)

/-- The acceptance test of the hospital placement loop (line 214): the
sampled position is farther than `2 * HOSPITAL_RADIUS` from every hospital
placed so far. -/
def hospitalPlacementOk (placed : List Vec3) (pos : Vec3) : Prop :=
  ∀ p ∈ placed, HOSPITAL_RADIUS * 2 < (pos - p).length

/-- The `while True` rejection-sampling loop of hospital placement (lines
208-215), with the stream of sampled positions `samples` passed in, starting
at sample `k`.  `fuel` bounds how many samples are inspected: `none` means
the loop has still not exited after `fuel` attempts (the source has no such
bound — it simply keeps looping). -/
noncomputable def hospitalPlacementLoop (placed : List Vec3) (samples : ℕ → Vec3) :
    ℕ → ℕ → Option Vec3
  | _, 0 => none
  | k, fuel + 1 =>
    if hospitalPlacementOk placed (samples k) then some (samples k)
    else hospitalPlacementLoop placed samples (k + 1) fuel

/-- The attraction vector as the spec's §4.2 states it: the unit vector
toward the target when target and position differ, else the zero vector. -/
noncomputable def spec_attraction (p target : Vec3) : Vec3 :=
  if target = p then 0 else (target - p).normalized

/-- The repulsion vector as the spec's §4.2 states it: the sum over clouds
within the planar avoidance radius of the unit planar vector from the cloud
to the drone, scaled by `1.5 * (R - distance) / R`. -/
noncomputable def spec_repulsion (p : Vec3) (clouds : List Cloud) : Vec3 :=
  (clouds.map fun c =>
    if (planar c.location - planar p).length < DRONE_AVOIDANCE_RADIUS then
      (1.5 * (DRONE_AVOIDANCE_RADIUS - (planar c.location - planar p).length) /
          DRONE_AVOIDANCE_RADIUS) • (planar p - planar c.location).normalized
    else 0).sum

/-- The movement vector as the spec's §4.2 states it: attraction plus
repulsion, normalized when non-zero, else the zero vector. -/
noncomputable def spec_movement (p target : Vec3) (clouds : List Cloud) : Vec3 :=
  if spec_attraction p target + spec_repulsion p clouds = 0 then 0
  else (spec_attraction p target + spec_repulsion p clouds).normalized

/-- The altitude invariant of §3: clouds at cloud altitude with planar
headings, drones at drone altitude. -/
def StateAltInv (s : State) : Prop :=
  (∀ c ∈ s.clouds, c.location.z = CLOUD_ALTITUDE ∧ c.direction.z = 0) ∧
  (∀ d ∈ s.drones, d.loc.z = DRONE_ALTITUDE)

/-! Basic component and length lemmas for `Vec3`. -/

@[simp] theorem Vec3.zero_x : (0 : Vec3).x = 0 := rfl

@[simp] theorem Vec3.zero_y : (0 : Vec3).y = 0 := rfl

@[simp] theorem Vec3.zero_z : (0 : Vec3).z = 0 := rfl

@[simp] theorem Vec3.add_x (a b : Vec3) : (a + b).x = a.x + b.x := rfl

@[simp] theorem Vec3.add_y (a b : Vec3) : (a + b).y = a.y + b.y := rfl

@[simp] theorem Vec3.add_z (a b : Vec3) : (a + b).z = a.z + b.z := rfl

@[simp] theorem Vec3.neg_x (a : Vec3) : (-a).x = -a.x := rfl

@[simp] theorem Vec3.neg_y (a : Vec3) : (-a).y = -a.y := rfl

@[simp] theorem Vec3.neg_z (a : Vec3) : (-a).z = -a.z := rfl

@[simp] theorem Vec3.sub_x (a b : Vec3) : (a - b).x = a.x - b.x := rfl

@[simp] theorem Vec3.sub_y (a b : Vec3) : (a - b).y = a.y - b.y := rfl

@[simp] theorem Vec3.sub_z (a b : Vec3) : (a - b).z = a.z - b.z := rfl

@[simp] theorem Vec3.smul_x (c : ℝ) (a : Vec3) : (c • a).x = c * a.x := rfl

@[simp] theorem Vec3.smul_y (c : ℝ) (a : Vec3) : (c • a).y = c * a.y := rfl

@[simp] theorem Vec3.smul_z (c : ℝ) (a : Vec3) : (c • a).z = c * a.z := rfl

@[simp] theorem Vec3.mk_x (x y z : ℝ) : (Vec3.mk x y z).x = x := rfl

@[simp] theorem Vec3.mk_y (x y z : ℝ) : (Vec3.mk x y z).y = y := rfl

@[simp] theorem Vec3.mk_z (x y z : ℝ) : (Vec3.mk x y z).z = z := rfl

theorem Vec3.length_mk (x y z : ℝ) :
    (Vec3.mk x y z).length = Real.sqrt (x ^ 2 + y ^ 2 + z ^ 2) := rfl

theorem Vec3.length_nonneg (v : Vec3) : 0 ≤ v.length := Real.sqrt_nonneg _

@[simp] theorem Vec3.length_zero : (0 : Vec3).length = 0 := by
  simp [Vec3.length]

@[simp] theorem Vec3.smul_zero' (c : ℝ) : c • (0 : Vec3) = 0 := by
  ext <;> simp

theorem Vec3.length_eq_zero_iff (v : Vec3) : v.length = 0 ↔ v = 0 := by
  unfold Vec3.length
  rw [Real.sqrt_eq_zero (by positivity)]
  constructor
  · intro h
    have hx : v.x = 0 := by nlinarith [sq_nonneg v.x, sq_nonneg v.y, sq_nonneg v.z]
    have hy : v.y = 0 := by nlinarith [sq_nonneg v.x, sq_nonneg v.y, sq_nonneg v.z]
    have hz : v.z = 0 := by nlinarith [sq_nonneg v.x, sq_nonneg v.y, sq_nonneg v.z]
    ext <;> simp [hx, hy, hz]
  · rintro rfl; norm_num

theorem Vec3.length_pos_iff (v : Vec3) : 0 < v.length ↔ v ≠ 0 := by
  rw [lt_iff_le_and_ne]
  constructor
  · rintro ⟨-, h⟩ hv
    exact h (by rw [hv, Vec3.length_zero])
  · intro hv
    exact ⟨Vec3.length_nonneg v, fun h => hv ((Vec3.length_eq_zero_iff v).mp h.symm)⟩

theorem Vec3.length_smul (c : ℝ) (v : Vec3) : (c • v).length = |c| * v.length := by
  unfold Vec3.length
  have h : (c • v).x ^ 2 + (c • v).y ^ 2 + (c • v).z ^ 2
      = c ^ 2 * (v.x ^ 2 + v.y ^ 2 + v.z ^ 2) := by
    simp; ring
  rw [h, Real.sqrt_mul (sq_nonneg c), Real.sqrt_sq_eq_abs]

theorem Vec3.length_sub_swap (a b : Vec3) : (a - b).length = (b - a).length := by
  unfold Vec3.length
  congr 1
  simp; ring

theorem Vec3.sub_eq_zero_iff_vec (a b : Vec3) : a - b = 0 ↔ a = b := by
  constructor
  · intro h
    ext
    · have := congrArg Vec3.x h; simp at this; linarith
    · have := congrArg Vec3.y h; simp at this; linarith
    · have := congrArg Vec3.z h; simp at this; linarith
  · rintro rfl; ext <;> simp

@[simp] theorem Vec3.normalized_zero : (0 : Vec3).normalized = 0 := by
  simp [Vec3.normalized]

theorem Vec3.normalized_length (v : Vec3) (h : 0 < v.length) :
    v.normalized.length = 1 := by
  unfold Vec3.normalized
  rw [if_pos h, Vec3.length_smul, abs_of_pos (by positivity)]
  field_simp

theorem Vec3.length_axis_x (a : ℝ) : (Vec3.mk a 0 0).length = |a| := by
  rw [Vec3.length_mk, show a ^ 2 + (0:ℝ) ^ 2 + (0:ℝ) ^ 2 = a ^ 2 by ring,
    Real.sqrt_sq_eq_abs]

theorem Vec3.length_axis_y (a : ℝ) : (Vec3.mk 0 a 0).length = |a| := by
  rw [Vec3.length_mk, show (0:ℝ) ^ 2 + a ^ 2 + (0:ℝ) ^ 2 = a ^ 2 by ring,
    Real.sqrt_sq_eq_abs]

/-- The `repulsion += ...` accumulation loop written as a sum. -/
theorem foldl_add_eq_sum {α : Type} (f : α → Vec3) (l : List α) (a : Vec3) :
    l.foldl (fun acc c => acc + f c) a = a + (l.map f).sum := by
  induction l generalizing a with
  | nil => simp
  | cons c cs ih => simp [ih, add_assoc]

/-- C2: one `move_clouds` tick computes the candidate
`position + direction * step_size`; flips the heading's x sign exactly when
the candidate's |x| exceeds the x boundary or the candidate is within
`CLOUD_RADIUS + HOSPITAL_RADIUS` of some hospital taken at cloud altitude;
independently flips the y sign under the y-boundary/proximity condition;
and then sets the final position to `position + direction * step_size`
using the possibly-flipped heading (not the original candidate), persisting
the flipped heading. -/
theorem moveCloud_flip_and_displace (hospitals : List Vec3) (c : Cloud) :
    (nearHospitalC hospitals (c.location + CLOUD_SPEED • c.direction) ↔
      ∃ h ∈ hospitals,
        (Vec3.mk h.x h.y CLOUD_ALTITUDE -
          (c.location + CLOUD_SPEED • c.direction)).length
          < CLOUD_RADIUS + HOSPITAL_RADIUS) ∧
    (moveCloud hospitals c).direction =
      ⟨if |(c.location + CLOUD_SPEED • c.direction).x| > CITY_BOUNDARY_X ∨
          nearHospitalC hospitals (c.location + CLOUD_SPEED • c.direction)
       then -c.direction.x else c.direction.x,
       if |(c.location + CLOUD_SPEED • c.direction).y| > CITY_BOUNDARY_Y ∨
          nearHospitalC hospitals (c.location + CLOUD_SPEED • c.direction)
       then -c.direction.y else c.direction.y,
       c.direction.z⟩ ∧
    (moveCloud hospitals c).location =
      c.location + CLOUD_SPEED • (moveCloud hospitals c).direction :=
  ⟨Iff.rfl, rfl, rfl⟩

/-- C10: a `move_clouds` tick preserves the Euclidean length of the heading
(sign flips of single components preserve length); hence a unit heading, as
set at initialization, stays a unit heading, and the realized displacement
of such a cloud in the tick has length exactly `CLOUD_SPEED`. -/
theorem moveCloud_heading_length (hospitals : List Vec3) (c : Cloud) :
    (moveCloud hospitals c).direction.length = c.direction.length ∧
    (c.direction.length = 1 →
      ((moveCloud hospitals c).location - c.location).length = CLOUD_SPEED) := by
  have hdir : (moveCloud hospitals c).direction.length = c.direction.length := by
    simp only [moveCloud]
    unfold Vec3.length
    simp only [Vec3.mk_x, Vec3.mk_y, Vec3.mk_z]
    congr 1
    split_ifs <;> ring
  refine ⟨hdir, fun h1 => ?_⟩
  have hloc : (moveCloud hospitals c).location - c.location
      = CLOUD_SPEED • (moveCloud hospitals c).direction := by
    ext <;> simp [moveCloud]
  rw [hloc, Vec3.length_smul, hdir, h1, mul_one,
    abs_of_pos (show (0:ℝ) < CLOUD_SPEED by norm_num [CLOUD_SPEED])]

/-- Witness for C10: a concrete cloud with unit heading `(0,1,0)` keeps a
unit heading and moves exactly `CLOUD_SPEED` in one tick. -/
theorem moveCloud_heading_length_witness :
    (moveCloud [] ⟨⟨5, 5, 10⟩, ⟨0, 1, 0⟩⟩).direction.length
        = (Vec3.mk 0 1 0).length ∧
    ((moveCloud [] ⟨⟨5, 5, 10⟩, ⟨0, 1, 0⟩⟩).location - ⟨5, 5, 10⟩).length
        = CLOUD_SPEED := by
  have h1 : (Vec3.mk 0 1 0).length = 1 := by
    rw [Vec3.length_axis_y]; norm_num
  exact ⟨(moveCloud_heading_length [] ⟨⟨5, 5, 10⟩, ⟨0, 1, 0⟩⟩).1,
    (moveCloud_heading_length [] ⟨⟨5, 5, 10⟩, ⟨0, 1, 0⟩⟩).2 h1⟩

/-- C3: for a drone that is not retargeting this tick, `move_drone` computes
exactly the spec's §4.2 step: attraction is the unit vector toward the
target when target ≠ position (else zero), repulsion sums the linear-decay
planar contributions of clouds within the avoidance radius, their sum is
normalized when non-zero, and the new position is
`position + movement * DRONE_SPEED` with z forced to the drone altitude. -/
theorem moveDrone_matches_spec (p target : Vec3) (clouds : List Cloud) :
    moveDrone p target clouds =
      ⟨(p + DRONE_SPEED • spec_movement p target clouds).x,
       (p + DRONE_SPEED • spec_movement p target clouds).y,
       DRONE_ALTITUDE⟩ := by
  have hatt : attractionOf p target = spec_attraction p target := by
    simp only [attractionOf, spec_attraction]
    by_cases h : target = p
    · have hz : target - p = 0 := (Vec3.sub_eq_zero_iff_vec _ _).mpr h
      rw [if_pos h, hz, Vec3.length_zero, if_neg (lt_irrefl 0)]
    · have hz : target - p ≠ 0 := fun hh => h ((Vec3.sub_eq_zero_iff_vec _ _).mp hh)
      rw [if_neg h, if_pos ((Vec3.length_pos_iff _).mpr hz)]
  have hrep : clouds.foldl (fun acc c => acc + repulsionOf p c.location) 0
      = spec_repulsion p clouds := by
    rw [foldl_add_eq_sum, zero_add]
    simp only [spec_repulsion, repulsionOf]
  have hmov : droneMovement p target clouds = spec_movement p target clouds := by
    simp only [droneMovement, spec_movement]
    rw [hatt, hrep]
    by_cases h : spec_attraction p target + spec_repulsion p clouds = 0
    · rw [if_pos h, h, Vec3.length_zero, if_neg (lt_irrefl 0)]
    · rw [if_neg h, if_pos ((Vec3.length_pos_iff _).mpr h)]
  simp only [moveDrone]
  rw [hmov]

/-- C7 counterexample: a cloud at zero planar distance from the drone is
inside the avoidance radius, yet its repulsion contribution has magnitude 0
— not 1.5 — because normalizing the zero planar offset yields the zero
vector. -/
theorem repulsion_zero_distance_counterexample :
    (planar (Vec3.mk 3 4 10) - planar (Vec3.mk 3 4 10)).length = 0 ∧
    (0:ℝ) < DRONE_AVOIDANCE_RADIUS ∧
    (repulsionOf (Vec3.mk 3 4 10) (Vec3.mk 3 4 10)).length = 0 ∧
    (0:ℝ) ≠ 1.5 := by
  have hz : planar (Vec3.mk 3 4 10) - planar (Vec3.mk 3 4 10) = 0 := by
    ext <;> simp [planar]
  have hcond : (0 : Vec3).length < DRONE_AVOIDANCE_RADIUS := by
    rw [Vec3.length_zero]; norm_num [DRONE_AVOIDANCE_RADIUS, CLOUD_RADIUS]
  refine ⟨by rw [hz, Vec3.length_zero],
    by norm_num [DRONE_AVOIDANCE_RADIUS, CLOUD_RADIUS], ?_, by norm_num⟩
  simp only [repulsionOf]
  rw [hz, if_pos hcond, Vec3.normalized_zero, Vec3.smul_zero', Vec3.length_zero]

/-- C7 amended: the repulsion contribution of a single cloud has magnitude
`1.5 * (R - d) / R` for planar distance `0 < d < R` — decaying linearly to 0
as `d` grows to the avoidance radius `R`, and approaching (but never
attaining) 1.5 as `d` tends to 0 — while at exactly zero planar distance the
contribution is the zero vector. -/
theorem repulsion_linear_decay (p c : Vec3) :
    ((planar c - planar p).length = 0 → repulsionOf p c = 0) ∧
    (0 < (planar c - planar p).length →
      (planar c - planar p).length < DRONE_AVOIDANCE_RADIUS →
      (repulsionOf p c).length =
        1.5 * (DRONE_AVOIDANCE_RADIUS - (planar c - planar p).length) /
          DRONE_AVOIDANCE_RADIUS) := by
  constructor
  · intro h0
    have hz : planar c - planar p = 0 := (Vec3.length_eq_zero_iff _).mp h0
    have he : planar c = planar p := (Vec3.sub_eq_zero_iff_vec _ _).mp hz
    have hz' : planar p - planar c = 0 := (Vec3.sub_eq_zero_iff_vec _ _).mpr he.symm
    have hcond : (0 : Vec3).length < DRONE_AVOIDANCE_RADIUS := by
      rw [Vec3.length_zero]; norm_num [DRONE_AVOIDANCE_RADIUS, CLOUD_RADIUS]
    simp only [repulsionOf]
    rw [hz, hz', if_pos hcond, Vec3.normalized_zero, Vec3.smul_zero']
  · intro hd hR
    have hRpos : (0:ℝ) < DRONE_AVOIDANCE_RADIUS := by
      norm_num [DRONE_AVOIDANCE_RADIUS, CLOUD_RADIUS]
    simp only [repulsionOf]
    rw [if_pos hR, Vec3.length_smul]
    have hpos : 0 < (planar p - planar c).length := by
      rw [Vec3.length_sub_swap]; exact hd
    have hnum : (0:ℝ) < 1.5 * (DRONE_AVOIDANCE_RADIUS - (planar c - planar p).length) := by
      nlinarith
    rw [Vec3.normalized_length _ hpos, mul_one, abs_of_pos (div_pos hnum hRpos)]

/-- Witness for C7: drone at `(1,0,10)`, cloud at `(0,0,10)`: planar
distance 1 is inside the avoidance radius 6, and the contribution magnitude
is `1.5 * (6 - 1) / 6 = 1.25`. -/
theorem repulsion_linear_decay_witness :
    (repulsionOf (Vec3.mk 1 0 10) (Vec3.mk 0 0 10)).length = 1.25 := by
  have hd : (planar (Vec3.mk 0 0 10) - planar (Vec3.mk 1 0 10)).length = 1 := by
    have h : planar (Vec3.mk 0 0 10) - planar (Vec3.mk 1 0 10) = Vec3.mk (-1) 0 0 := by
      ext <;> simp [planar]
    rw [h, Vec3.length_axis_x]; norm_num
  have h := (repulsion_linear_decay (Vec3.mk 1 0 10) (Vec3.mk 0 0 10)).2
    (by rw [hd]; norm_num)
    (by rw [hd]; norm_num [DRONE_AVOIDANCE_RADIUS, CLOUD_RADIUS])
  rw [h, hd]
  norm_num [DRONE_AVOIDANCE_RADIUS, CLOUD_RADIUS]

/-- With at least two hospitals, choosing from the hospital list minus one
excluded index always succeeds and yields a valid index different from the
excluded one. -/
theorem chooseExcluding_mem (n excl k : ℕ) (hn : 2 ≤ n) :
    ∃ j, chooseExcluding n excl k = some j ∧ j < n ∧ j ≠ excl := by
  have hne : ((List.range n).filter fun i => decide (i ≠ excl)) ≠ [] := by
    intro hemp
    by_cases h0 : excl = 0
    · have h1 : (1:ℕ) ∈ (List.range n).filter fun i => decide (i ≠ excl) :=
        List.mem_filter.mpr ⟨List.mem_range.mpr (by omega), by simp [h0]⟩
      rw [hemp] at h1
      exact absurd h1 (List.not_mem_nil _)
    · have h1 : (0:ℕ) ∈ (List.range n).filter fun i => decide (i ≠ excl) :=
        List.mem_filter.mpr ⟨List.mem_range.mpr (by omega), by simp [Ne.symm h0]⟩
      rw [hemp] at h1
      exact absurd h1 (List.not_mem_nil _)
  have hpos : 0 < ((List.range n).filter fun i => decide (i ≠ excl)).length :=
    List.length_pos.mpr hne
  have hmem : ((List.range n).filter fun i => decide (i ≠ excl)).get
      ⟨k % ((List.range n).filter fun i => decide (i ≠ excl)).length, Nat.mod_lt k hpos⟩
      ∈ (List.range n).filter fun i => decide (i ≠ excl) :=
    List.get_mem _ _ _
  unfold chooseExcluding randomChoice
  rw [dif_pos hpos]
  exact ⟨_, rfl, List.mem_range.mp (List.mem_filter.mp hmem).1,
    by simpa using (List.mem_filter.mp hmem).2⟩

/-- Arrival branch of the per-drone tick body, as a reusable lemma: with at
least two hospitals the retarget succeeds and produces the teleport
record. -/
theorem stepDrone_arrival_case (hs : List Vec3) (nc : List Cloud) (k : ℕ)
    (d : DroneRec) (hlen : 2 ≤ hs.length)
    (harr : (d.loc - d.target).length < DRONE_SPEED * 2) :
    ∃ j, j < hs.length ∧ j ≠ d.hosp ∧
      stepDrone hs nc k d =
        some ⟨setAlt (hs.getD d.hosp 0), setAlt (hs.getD j 0), j⟩ := by
  obtain ⟨j, hj, hjlt, hjne⟩ := chooseExcluding_mem hs.length d.hosp k hlen
  refine ⟨j, hjlt, hjne, ?_⟩
  simp only [stepDrone]
  rw [if_pos harr, hj]

/-- Transit branch of the per-drone tick body, as a reusable lemma. -/
theorem stepDrone_transit_case (hs : List Vec3) (nc : List Cloud) (k : ℕ)
    (d : DroneRec)
    (hnot : ¬ (d.loc - d.target).length < DRONE_SPEED * 2) :
    stepDrone hs nc k d =
      some ⟨moveDrone d.loc d.target nc, d.target, d.hosp⟩ := by
  simp only [stepDrone]
  rw [if_neg hnot]

/-- C1: with at least two hospitals, the per-drone tick body retargets a
drone exactly when its distance to its target is below `DRONE_SPEED * 2`:
in that case the drone's position becomes the stored hospital's position
with z forced to drone altitude, its target becomes the position (z forced)
of a hospital picked from the list excluding the stored one, and
`move_drone` is skipped for that tick; otherwise `move_drone` runs and both
the target and the stored hospital are unchanged. -/
theorem stepDrone_arrival_split (hs : List Vec3) (nc : List Cloud) (k : ℕ)
    (d : DroneRec) (hlen : 2 ≤ hs.length) :
    ((d.loc - d.target).length < DRONE_SPEED * 2 →
      ∃ j, j < hs.length ∧ j ≠ d.hosp ∧
        stepDrone hs nc k d =
          some ⟨setAlt (hs.getD d.hosp 0), setAlt (hs.getD j 0), j⟩) ∧
    (¬ (d.loc - d.target).length < DRONE_SPEED * 2 →
      stepDrone hs nc k d =
        some ⟨moveDrone d.loc d.target nc, d.target, d.hosp⟩) :=
  ⟨stepDrone_arrival_case hs nc k d hlen, stepDrone_transit_case hs nc k d⟩

/-- Witness for C1: the spec's §8 scenario — hospitals at `(0,0,4)` and
`(10,0,4)`, a drone at `(9.9,0,10)` with target `(10,0,10)` and stored
hospital 0 — retargets: it is reset to `(0,0,10)` and aimed at hospital 1's
pad `(10,0,10)`. -/
theorem stepDrone_arrival_split_witness :
    stepDrone [⟨0, 0, 4⟩, ⟨10, 0, 4⟩] [] 0 ⟨⟨9.9, 0, 10⟩, ⟨10, 0, 10⟩, 0⟩ =
      some ⟨⟨0, 0, 10⟩, ⟨10, 0, 10⟩, 1⟩ := by
  have harr : ((Vec3.mk 9.9 0 10) - ⟨10, 0, 10⟩).length < DRONE_SPEED * 2 := by
    have h : (Vec3.mk 9.9 0 10) - ⟨10, 0, 10⟩ = Vec3.mk (-0.1) 0 0 := by
      ext <;> simp <;> norm_num
    rw [h, Vec3.length_axis_x]
    rw [show |(-0.1:ℝ)| = 0.1 by rw [abs_neg, abs_of_pos] <;> norm_num]
    norm_num [DRONE_SPEED]
  obtain ⟨j, hjlt, hjne, hstep⟩ :=
    (stepDrone_arrival_split [⟨0, 0, 4⟩, ⟨10, 0, 4⟩] [] 0
      ⟨⟨9.9, 0, 10⟩, ⟨10, 0, 10⟩, 0⟩ (by norm_num)).1 harr
  have hjlt2 : j < 2 := by simpa using hjlt
  have hjne0 : j ≠ 0 := by simpa using hjne
  have hj1 : j = 1 := by omega
  subst hj1
  exact hstep.trans rfl

/-- Shared concrete retarget computation: hospitals at `(0,0,4)` and
`(20,0,4)`, drone at `(19.9,0,10)` targeting `(20,0,10)` with stored
hospital 0.  The arrival branch fires: the drone is teleported to hospital
0's pad `(0,0,10)` — its departure point for the next leg — while the
record now stores hospital 1. -/
theorem stepDrone_retarget_example :
    stepDrone [⟨0, 0, 4⟩, ⟨20, 0, 4⟩] [] 0 ⟨⟨19.9, 0, 10⟩, ⟨20, 0, 10⟩, 0⟩ =
      some ⟨⟨0, 0, 10⟩, ⟨20, 0, 10⟩, 1⟩ := by
  have harr : ((Vec3.mk 19.9 0 10) - ⟨20, 0, 10⟩).length < DRONE_SPEED * 2 := by
    have h : (Vec3.mk 19.9 0 10) - ⟨20, 0, 10⟩ = Vec3.mk (-0.1) 0 0 := by
      ext <;> simp <;> norm_num
    rw [h, Vec3.length_axis_x]
    rw [show |(-0.1:ℝ)| = 0.1 by rw [abs_neg, abs_of_pos] <;> norm_num]
    norm_num [DRONE_SPEED]
  have hch : chooseExcluding 2 0 0 = some 1 := by decide
  simp only [stepDrone]
  rw [if_pos harr]
  rw [show ([⟨0, 0, 4⟩, ⟨20, 0, 4⟩] : List Vec3).length = 2 from rfl, hch]
  rfl

/-- C4 counterexample: after the retarget of `stepDrone_retarget_example`,
the drone sits at hospital 0's pad `(0,0,10)` — the point it departs from on
its next leg — but the hospital stored in its record is hospital 1, whose
pad `(20,0,10)` is a different point.  So the stored hospital is not the
hospital the drone most recently departed from. -/
theorem stored_hospital_not_departure :
    stepDrone [⟨0, 0, 4⟩, ⟨20, 0, 4⟩] [] 0 ⟨⟨19.9, 0, 10⟩, ⟨20, 0, 10⟩, 0⟩ =
      some ⟨⟨0, 0, 10⟩, ⟨20, 0, 10⟩, 1⟩ ∧
    setAlt (([⟨0, 0, 4⟩, ⟨20, 0, 4⟩] : List Vec3).getD 1 0) ≠ Vec3.mk 0 0 10 := by
  refine ⟨stepDrone_retarget_example, ?_⟩
  intro h
  have hx := congrArg Vec3.x h
  rw [show setAlt (([⟨0, 0, 4⟩, ⟨20, 0, 4⟩] : List Vec3).getD 1 0) = Vec3.mk 20 0 10
    from rfl] at hx
  simp at hx

/-- C4 amended: the stored hospital is the reset point on arrival (the
drone is teleported to its pad, z forced to drone altitude) and is the
hospital excluded when picking the next target; but on each retarget the
record is updated to store the newly chosen target hospital — the
destination of the next leg — rather than the hospital the drone departs
from (the two coincide only on the initial leg, where initialization stores
the start hospital). -/
theorem stepDrone_stored_is_new_target (hs : List Vec3) (nc : List Cloud)
    (k : ℕ) (d d' : DroneRec) (hlen : 2 ≤ hs.length)
    (harr : (d.loc - d.target).length < DRONE_SPEED * 2)
    (h : stepDrone hs nc k d = some d') :
    d'.loc = setAlt (hs.getD d.hosp 0) ∧
    d'.target = setAlt (hs.getD d'.hosp 0) ∧
    d'.hosp ≠ d.hosp ∧ d'.hosp < hs.length := by
  obtain ⟨j, hjlt, hjne, hstep⟩ :=
    stepDrone_arrival_case hs nc k d hlen harr
  rw [h] at hstep
  have hd' : d' = ⟨setAlt (hs.getD d.hosp 0), setAlt (hs.getD j 0), j⟩ :=
    Option.some.inj hstep
  subst hd'
  exact ⟨rfl, rfl, hjne, hjlt⟩

/-- Witness for C4: instantiating the amended statement on the concrete
retarget of `stepDrone_retarget_example`. -/
theorem stepDrone_stored_is_new_target_witness :
    (Vec3.mk 0 0 10) = setAlt (([⟨0, 0, 4⟩, ⟨20, 0, 4⟩] : List Vec3).getD 0 0) ∧
    (Vec3.mk 20 0 10) = setAlt (([⟨0, 0, 4⟩, ⟨20, 0, 4⟩] : List Vec3).getD 1 0) ∧
    (1 : ℕ) ≠ 0 ∧ (1 : ℕ) < 2 := by
  have harr : ((Vec3.mk 19.9 0 10) - ⟨20, 0, 10⟩).length < DRONE_SPEED * 2 := by
    have h : (Vec3.mk 19.9 0 10) - ⟨20, 0, 10⟩ = Vec3.mk (-0.1) 0 0 := by
      ext <;> simp <;> norm_num
    rw [h, Vec3.length_axis_x]
    rw [show |(-0.1:ℝ)| = 0.1 by rw [abs_neg, abs_of_pos] <;> norm_num]
    norm_num [DRONE_SPEED]
  have h := stepDrone_stored_is_new_target [⟨0, 0, 4⟩, ⟨20, 0, 4⟩] [] 0
    ⟨⟨19.9, 0, 10⟩, ⟨20, 0, 10⟩, 0⟩ ⟨⟨0, 0, 10⟩, ⟨20, 0, 10⟩, 1⟩
    (by norm_num) harr stepDrone_retarget_example
  exact ⟨h.1.symm, h.2.1.symm, h.2.2.1, by simpa using h.2.2.2⟩

/-- A successful drone loop updates each drone by `stepDrone` at its own
index, every one against the same cloud list. -/
theorem updateDrones_get_eq (hs : List Vec3) (nc : List Cloud) (picks : ℕ → ℕ) :
    ∀ (ds : List DroneRec) (k : ℕ) (ds' : List DroneRec),
      updateDrones hs nc picks ds k = some ds' →
      ∀ i d, ds.get? i = some d →
        ∃ d', ds'.get? i = some d' ∧ stepDrone hs nc (picks (k + i)) d = some d' := by
  intro ds
  induction ds with
  | nil =>
    intro k ds' h i d hd
    simp at hd
  | cons a as ih =>
    intro k ds' h i d hd
    simp only [updateDrones] at h
    cases hstep : stepDrone hs nc (picks k) a with
    | none =>
      rw [hstep] at h
      exact absurd h (by simp)
    | some a' =>
      rw [hstep] at h
      cases hrest : updateDrones hs nc picks as (k + 1) with
      | none =>
        rw [hrest] at h
        exact absurd h (by simp)
      | some as' =>
        rw [hrest] at h
        simp only [Option.some.injEq] at h
        subst h
        cases i with
        | zero =>
          have hda : a = d := by simpa using hd
          subst hda
          exact ⟨a', by simp, by simpa using hstep⟩
        | succ i =>
          have hd2 : as.get? i = some d := by simpa using hd
          obtain ⟨d', hget, hstep'⟩ := ih (k + 1) as' hrest i d hd2
          refine ⟨d', by simpa using hget, ?_⟩
          have harith : k + 1 + i = k + (i + 1) := by omega
          rw [← harith]
          exact hstep'

/-- C5: in a successful tick of `update_scene`, the new cloud list is
`move_clouds` applied to the previous clouds, and every drone that is not
retargeting that tick is advanced by `move_drone` against those same-tick
updated clouds — all clouds are advanced before any drone reads them. -/
theorem updateScene_clouds_before_drones (picks : ℕ → ℕ) (s s' : State)
    (h : updateScene picks s = some s') :
    s'.clouds = moveClouds s.hospitals s.clouds ∧
    ∀ i d, s.drones.get? i = some d →
      ¬ (d.loc - d.target).length < DRONE_SPEED * 2 →
      s'.drones.get? i =
        some ⟨moveDrone d.loc d.target (moveClouds s.hospitals s.clouds),
              d.target, d.hosp⟩ := by
  simp only [updateScene] at h
  cases hup : updateDrones s.hospitals (moveClouds s.hospitals s.clouds) picks
      s.drones 0 with
  | none =>
    rw [hup] at h
    exact absurd h (by simp)
  | some ds =>
    rw [hup] at h
    simp only [Option.some.injEq] at h
    subst h
    refine ⟨rfl, ?_⟩
    intro i d hd hnot
    obtain ⟨d', hget, hstep⟩ := updateDrones_get_eq _ _ _ _ _ _ hup i d hd
    simp only [stepDrone] at hstep
    rw [if_neg hnot] at hstep
    simp only [Option.some.injEq] at hstep
    rw [hget, ← hstep]

/-- The C5/C6 witness drone's arrival test fails: it is 10 units from its
target, far above the `0.3` threshold. -/
theorem drone_far_example :
    ¬ ((Vec3.mk 10 0 10) - ⟨0, 0, 10⟩).length < DRONE_SPEED * 2 := by
  have h : (Vec3.mk 10 0 10) - ⟨0, 0, 10⟩ = Vec3.mk 10 0 0 := by
    ext <;> simp
  rw [h, Vec3.length_axis_x, abs_of_pos (by norm_num)]
  norm_num [DRONE_SPEED]

/-- Concrete `move_drone` evaluation with no clouds: pure attraction moves
the drone `DRONE_SPEED` straight toward its target. -/
theorem moveDrone_example :
    moveDrone ⟨10, 0, 10⟩ ⟨0, 0, 10⟩ [] = ⟨9.85, 0, 10⟩ := by
  have htv : (Vec3.mk 0 0 10) - ⟨10, 0, 10⟩ = Vec3.mk (-10) 0 0 := by
    ext <;> simp
  have hlen : (Vec3.mk (-10) 0 0).length = 10 := by
    rw [Vec3.length_axis_x, abs_neg, abs_of_pos (by norm_num)]
  have hatt : attractionOf ⟨10, 0, 10⟩ ⟨0, 0, 10⟩ = Vec3.mk (-1) 0 0 := by
    simp only [attractionOf]
    rw [htv, if_pos (by rw [hlen]; norm_num)]
    simp only [Vec3.normalized]
    rw [if_pos (by rw [hlen]; norm_num), hlen]
    ext <;> simp <;> norm_num
  have hlen1 : (Vec3.mk (-1) 0 0).length = 1 := by
    rw [Vec3.length_axis_x, abs_neg, abs_of_pos (by norm_num)]
  have hmv : droneMovement ⟨10, 0, 10⟩ ⟨0, 0, 10⟩ [] = Vec3.mk (-1) 0 0 := by
    simp only [droneMovement, List.foldl]
    rw [hatt, add_zero, if_pos (by rw [hlen1]; norm_num)]
    simp only [Vec3.normalized]
    rw [if_pos (by rw [hlen1]; norm_num), hlen1]
    ext <;> simp
  simp only [moveDrone]
  rw [hmv]
  ext <;> simp [DRONE_SPEED, DRONE_ALTITUDE, CLOUD_ALTITUDE] <;> norm_num

/-- Concrete `update_scene` evaluation: no hospitals, no clouds, one
transiting drone. -/
theorem updateScene_example :
    updateScene (fun _ => 0) ⟨[], [], [⟨⟨10, 0, 10⟩, ⟨0, 0, 10⟩, 5⟩]⟩ =
      some ⟨[], [], [⟨⟨9.85, 0, 10⟩, ⟨0, 0, 10⟩, 5⟩]⟩ := by
  have hstep : stepDrone [] [] 0 ⟨⟨10, 0, 10⟩, ⟨0, 0, 10⟩, 5⟩ =
      some ⟨⟨9.85, 0, 10⟩, ⟨0, 0, 10⟩, 5⟩ := by
    simp only [stepDrone]
    rw [if_neg drone_far_example, moveDrone_example]
  simp only [updateScene, moveClouds, List.map, updateDrones, hstep]

/-- Witness for C5: the concrete tick above, whose surviving drone record is
exactly `move_drone` against the same-tick cloud list. -/
theorem updateScene_clouds_before_drones_witness :
    updateScene (fun _ => 0) ⟨[], [], [⟨⟨10, 0, 10⟩, ⟨0, 0, 10⟩, 5⟩]⟩ =
      some ⟨[], [], [⟨⟨9.85, 0, 10⟩, ⟨0, 0, 10⟩, 5⟩]⟩ ∧
    (State.mk [] [] [⟨⟨9.85, 0, 10⟩, ⟨0, 0, 10⟩, 5⟩]).drones.get? 0 =
      some ⟨moveDrone ⟨10, 0, 10⟩ ⟨0, 0, 10⟩ (moveClouds [] []), ⟨0, 0, 10⟩, 5⟩ := by
  refine ⟨updateScene_example, ?_⟩
  have h := updateScene_clouds_before_drones (fun _ => 0) _ _ updateScene_example
  exact h.2 0 ⟨⟨10, 0, 10⟩, ⟨0, 0, 10⟩, 5⟩ (by simp) drone_far_example

/-- `move_clouds` keeps a cloud with planar heading exactly at its
altitude. -/
theorem moveCloud_alt (hs : List Vec3) (c : Cloud)
    (h1 : c.location.z = CLOUD_ALTITUDE) (h2 : c.direction.z = 0) :
    (moveCloud hs c).location.z = CLOUD_ALTITUDE ∧
    (moveCloud hs c).direction.z = 0 := by
  constructor
  · simp [moveCloud, h1, h2]
  · simp [moveCloud, h2]

/-- Both branches of the per-drone tick body force the drone's z to the
drone altitude. -/
theorem stepDrone_alt (hs : List Vec3) (nc : List Cloud) (k : ℕ)
    (d d' : DroneRec) (h : stepDrone hs nc k d = some d') :
    d'.loc.z = DRONE_ALTITUDE := by
  simp only [stepDrone] at h
  by_cases harr : (d.loc - d.target).length < DRONE_SPEED * 2
  · rw [if_pos harr] at h
    cases hch : chooseExcluding hs.length d.hosp k with
    | none =>
      rw [hch] at h
      exact absurd h (by simp)
    | some j =>
      rw [hch] at h
      simp only [Option.some.injEq] at h
      rw [← h]
      rfl
  · rw [if_neg harr] at h
    simp only [Option.some.injEq] at h
    rw [← h]
    rfl

/-- Every drone surviving a drone loop sits at the drone altitude. -/
theorem updateDrones_alt (hs : List Vec3) (nc : List Cloud) (picks : ℕ → ℕ) :
    ∀ (ds : List DroneRec) (k : ℕ) (ds' : List DroneRec),
      updateDrones hs nc picks ds k = some ds' →
      ∀ d' ∈ ds', d'.loc.z = DRONE_ALTITUDE := by
  intro ds
  induction ds with
  | nil =>
    intro k ds' h d' hd'
    simp only [updateDrones, Option.some.injEq] at h
    subst h
    simp at hd'
  | cons a as ih =>
    intro k ds' h d' hd'
    simp only [updateDrones] at h
    cases hstep : stepDrone hs nc (picks k) a with
    | none =>
      rw [hstep] at h
      exact absurd h (by simp)
    | some a' =>
      rw [hstep] at h
      cases hrest : updateDrones hs nc picks as (k + 1) with
      | none =>
        rw [hrest] at h
        exact absurd h (by simp)
      | some as' =>
        rw [hrest] at h
        simp only [Option.some.injEq] at h
        subst h
        rcases List.mem_cons.mp hd' with rfl | hmem
        · exact stepDrone_alt hs nc (picks k) a d' hstep
        · exact ih (k + 1) as' hrest d' hmem

/-- One tick of `update_scene` preserves the altitude invariant. -/
theorem updateScene_alt (picks : ℕ → ℕ) (s s' : State) (hInv : StateAltInv s)
    (h : updateScene picks s = some s') : StateAltInv s' := by
  simp only [updateScene] at h
  cases hup : updateDrones s.hospitals (moveClouds s.hospitals s.clouds) picks
      s.drones 0 with
  | none =>
    rw [hup] at h
    exact absurd h (by simp)
  | some ds =>
    rw [hup] at h
    simp only [Option.some.injEq] at h
    subst h
    refine ⟨?_, ?_⟩
    · intro c' hc'
      obtain ⟨c, hc, rfl⟩ := List.mem_map.mp hc'
      exact moveCloud_alt s.hospitals c (hInv.1 c hc).1 (hInv.1 c hc).2
    · intro d' hd'
      exact updateDrones_alt _ _ _ _ _ _ hup d' hd'

/-- Any number of ticks preserves the altitude invariant. -/
theorem runTicks_alt (picks : ℕ → ℕ → ℕ) :
    ∀ (n : ℕ) (s s' : State), StateAltInv s → runTicks picks n s = some s' →
      StateAltInv s' := by
  intro n
  induction n with
  | zero =>
    intro s s' hInv h
    simp only [runTicks, Option.some.injEq] at h
    rw [← h]
    exact hInv
  | succ n ih =>
    intro s s' hInv h
    simp only [runTicks] at h
    cases hup : updateScene (picks n) s with
    | none =>
      rw [hup] at h
      exact absurd h (by simp)
    | some s1 =>
      rw [hup] at h
      exact ih s1 s' (updateScene_alt (picks n) s s1 hInv hup) h

/-- C6: if every cloud starts at the cloud altitude with a planar heading
and every drone starts at the drone altitude (the same fixed constant), then
after any number of ticks of the driver the z coordinate of every cloud and
every drone still equals that constant exactly. -/
theorem altitude_preserved (picks : ℕ → ℕ → ℕ) (n : ℕ) (s s' : State)
    (hC : ∀ c ∈ s.clouds, c.location.z = CLOUD_ALTITUDE ∧ c.direction.z = 0)
    (hD : ∀ d ∈ s.drones, d.loc.z = DRONE_ALTITUDE)
    (h : runTicks picks n s = some s') :
    (∀ c ∈ s'.clouds, c.location.z = CLOUD_ALTITUDE) ∧
    (∀ d ∈ s'.drones, d.loc.z = DRONE_ALTITUDE) := by
  have hInv := runTicks_alt picks n s s' ⟨hC, hD⟩ h
  exact ⟨fun c hc => (hInv.1 c hc).1, hInv.2⟩

/-- Concrete `move_clouds` evaluation: one cloud far from the boundary, no
hospitals — no bounce, one step along the heading. -/
theorem moveCloud_example :
    moveCloud [] ⟨⟨0, 0, 10⟩, ⟨1, 0, 0⟩⟩ = ⟨⟨0.1, 0, 10⟩, ⟨1, 0, 0⟩⟩ := by
  have hcand : (Vec3.mk 0 0 10) + CLOUD_SPEED • (Vec3.mk 1 0 0) = ⟨0.1, 0, 10⟩ := by
    ext <;> simp [CLOUD_SPEED]
  have hnx : ¬ (|(Vec3.mk 0.1 0 10).x| > CITY_BOUNDARY_X ∨
      nearHospitalC [] ⟨0.1, 0, 10⟩) := by
    rintro (hgt | hnear)
    · rw [show (Vec3.mk 0.1 0 10).x = 0.1 from rfl,
        abs_of_pos (by norm_num)] at hgt
      norm_num [CITY_BOUNDARY_X, CITY_GRID_SIZE, BUILDING_SPACING] at hgt
    · simp [nearHospitalC] at hnear
  have hny : ¬ (|(Vec3.mk 0.1 0 10).y| > CITY_BOUNDARY_Y ∨
      nearHospitalC [] ⟨0.1, 0, 10⟩) := by
    rintro (hgt | hnear)
    · rw [show (Vec3.mk 0.1 0 10).y = 0 from rfl, abs_zero] at hgt
      norm_num [CITY_BOUNDARY_Y, CITY_GRID_SIZE, BUILDING_SPACING] at hgt
    · simp [nearHospitalC] at hnear
  simp only [moveCloud]
  rw [hcand, if_neg hnx, if_neg hny]
  ext <;> simp [CLOUD_SPEED]

/-- Concrete one-tick run: a single drifting cloud, no hospitals, no
drones. -/
theorem runTicks_example :
    runTicks (fun _ _ => 0) 1 ⟨[], [⟨⟨0, 0, 10⟩, ⟨1, 0, 0⟩⟩], []⟩ =
      some ⟨[], [⟨⟨0.1, 0, 10⟩, ⟨1, 0, 0⟩⟩], []⟩ := by
  have hus : updateScene (fun _ => 0) ⟨[], [⟨⟨0, 0, 10⟩, ⟨1, 0, 0⟩⟩], []⟩ =
      some ⟨[], [⟨⟨0.1, 0, 10⟩, ⟨1, 0, 0⟩⟩], []⟩ := by
    simp only [updateScene, moveClouds, List.map, updateDrones, moveCloud_example]
  simp only [runTicks, hus]

/-- Witness for C6: after one tick of the concrete run the cloud's z is
still exactly the altitude constant. -/
theorem altitude_preserved_witness :
    runTicks (fun _ _ => 0) 1 ⟨[], [⟨⟨0, 0, 10⟩, ⟨1, 0, 0⟩⟩], []⟩ =
      some ⟨[], [⟨⟨0.1, 0, 10⟩, ⟨1, 0, 0⟩⟩], []⟩ ∧
    ∀ c ∈ ([⟨⟨0.1, 0, 10⟩, ⟨1, 0, 0⟩⟩] : List Cloud),
      c.location.z = CLOUD_ALTITUDE := by
  refine ⟨runTicks_example, ?_⟩
  have h := altitude_preserved (fun _ _ => 0) 1 _ _
    (by
      intro c hc
      simp only [List.mem_singleton] at hc
      subst hc
      norm_num [CLOUD_ALTITUDE])
    (by
      intro d hd
      simp at hd)
    runTicks_example
  exact h.1

/-- C8 (code bug): the hospital placement loop has no retry budget.  With
one hospital already placed at the origin and a sample stream that keeps
returning that same colliding position — possible, since rejection sampling
bounds nothing — the loop never exits: for every bound `fuel` on the number
of inspected samples it is still running, and no configuration error is
ever surfaced. -/
theorem hospitalPlacementLoop_never_exits (k fuel : ℕ) :
    hospitalPlacementLoop [⟨0, 0, 4⟩] (fun _ => ⟨0, 0, 4⟩) k fuel = none := by
  induction fuel generalizing k with
  | zero => rfl
  | succ n ih =>
    have hnot : ¬ hospitalPlacementOk [⟨0, 0, 4⟩] ⟨0, 0, 4⟩ := by
      intro hok
      have h := hok ⟨0, 0, 4⟩ (by simp)
      have hz : (Vec3.mk 0 0 4) - ⟨0, 0, 4⟩ = 0 := by
        ext <;> simp
      rw [hz, Vec3.length_zero] at h
      norm_num [HOSPITAL_RADIUS] at h
    simp only [hospitalPlacementLoop]
    rw [if_neg hnot]
    exact ih (k + 1)

/-- With at most one hospital, creating even a single drone errors: the
candidate list `hospitals minus the start hospital` is empty, and
`random.choice` of an empty list raises. -/
theorem initDrone_none (hs : List Vec3) (k1 k2 : ℕ) (hh : hs.length ≤ 1) :
    initDrone hs k1 k2 = none := by
  cases hs with
  | nil => rfl
  | cons a t =>
    cases t with
    | nil =>
      have h1 : randomChoice (List.range ([a] : List Vec3).length) k1 = some 0 := by
        simp [randomChoice, (by decide : List.range 1 = [0]), Nat.mod_one]
      have h2 : chooseExcluding ([a] : List Vec3).length 0 k2 = none := by
        simp [chooseExcluding, randomChoice, (by decide : List.range 1 = [0])]
      simp only [initDrone, h1, h2]
    | cons b t' =>
      exfalso
      simp only [List.length_cons] at hh
      omega

/-- C9: with fewer than two hospitals, drone initialization fails with an
error on the very first drone (the script always creates at least three),
so the program fails fast at start-up rather than silently tolerating the
configuration. -/
theorem initDrones_fail_fast (hs : List Vec3) (ks : ℕ → ℕ × ℕ) (n : ℕ)
    (hn : 1 ≤ n) (hh : hs.length ≤ 1) :
    initDrones hs ks n = none := by
  obtain ⟨m, rfl⟩ : ∃ m, n = m + 1 := ⟨n - 1, by omega⟩
  simp only [initDrones, initDrone_none hs (ks m).1 (ks m).2 hh]

/-- Witness for C9: one hospital, three drones — initialization errors. -/
theorem initDrones_fail_fast_witness :
    initDrones [⟨7, 7, 4⟩] (fun _ => (0, 0)) 3 = none :=
  initDrones_fail_fast _ _ 3 (by norm_num) (by simp)

end SafeSound
